import Mathlib

/-!
Shallow embedding of the NeuroCloud detect-and-remediate core:
class AnomalyDetector of src/anomaly_detector.py and class HealingEngine
of src/healing_engine.py.  Metric values and timestamps are rationals; a
metric field that is absent from the input mapping (or NaN) is `none`.
The sklearn objects stored on the detector (StandardScaler,
IsolationForest) are embedded as function-valued fields: the fitted
transform and the fitted predict/score functions, together with the
fitting procedures that produce them; their numeric internals are
irrelevant to every property proved here.
-/

namespace NeuroCloud

/-- A metric sample: the seven recognized numeric fields listed in
AnomalyDetector.feature_columns (src/anomaly_detector.py lines 28-32).
A field is `none` when the key is absent from the input dict or its value
is NaN.  The timestamp and unrecognized keys play no role in any embedded
operation, so they are not carried. -/
structure MetricSample where
  cpu_usage : Option ℚ
  memory_usage : Option ℚ
  disk_usage : Option ℚ
  network_throughput : Option ℚ
  response_time : Option ℚ
  active_connections : Option ℚ
  error_rate : Option ℚ
deriving DecidableEq

/-- The fixed feature-column order of AnomalyDetector.feature_columns,
as field projections. -/
def featureGetters : List (MetricSample → Option ℚ) :=
  [(·.cpu_usage), (·.memory_usage), (·.disk_usage), (·.network_throughput),
   (·.response_time), (·.active_connections), (·.error_rate)]

/-- Raw row of one sample in feature-column order (the dataframe row
before any fillna). -/
def sampleRow (s : MetricSample) : List (Option ℚ) :=
  [s.cpu_usage, s.memory_usage, s.disk_usage, s.network_throughput,
   s.response_time, s.active_connections, s.error_rate]

/-- Column mean as pandas DataFrame.mean computes it: the mean of the
non-missing entries of the column, and `none` when every entry is
missing (the mean of an all-NaN column is NaN). -/
def colMean (xs : List (Option ℚ)) : Option ℚ :=
  let present := xs.filterMap id
  if present.length = 0 then none
  else some (present.sum / (present.length : ℚ))

/-- AnomalyDetector.prepare_features (src/anomaly_detector.py lines
46-54): select the seven feature columns of the given frame and fill
each missing entry with that column's mean over this same frame
(features.fillna(features.mean())).  A cell stays missing when its whole
column is missing. -/
def prepare_features (df : List MetricSample) : List (List (Option ℚ)) :=
  let means := featureGetters.map (fun g => colMean (df.map g))
  df.map (fun s => List.zipWith
    (fun g mu => match g s with
      | some v => some v
      | none => mu) featureGetters means)

/-- One entry of the problematic-metrics list built in
AnomalyDetector.detect (src/anomaly_detector.py lines 103-114); the
formatted message string of the Python code is abstracted to the metric
tag plus the offending value. -/
inductive Issue where
  | highCpu (value : ℚ)
  | highMemory (value : ℚ)
  | slowResponse (value : ℚ)
  | highErrors (value : ℚ)
deriving DecidableEq

/-- The problematic-metrics loop of AnomalyDetector.detect: iterating
feature_columns in order hits the cpu, memory, response-time and
error-rate checks in that order; metrics_dict.get(col, 0) reads a
missing value as 0. -/
def problematic_metrics (m : MetricSample) (is_anomaly : Bool) : List Issue :=
  if is_anomaly then
    (if 85 < m.cpu_usage.getD 0 then [Issue.highCpu (m.cpu_usage.getD 0)] else []) ++
    (if 80 < m.memory_usage.getD 0 then [Issue.highMemory (m.memory_usage.getD 0)] else []) ++
    (if 1000 < m.response_time.getD 0 then [Issue.slowResponse (m.response_time.getD 0)] else []) ++
    (if 5 < m.error_rate.getD 0 then [Issue.highErrors (m.error_rate.getD 0)] else [])
  else []

/-- Result of AnomalyDetector.detect.  The Python method returns the
sentinel tuple (None, None, "Model not trained yet") when untrained and
(is_anomaly, score, problematic_metrics) when trained; the two shapes
are the two constructors. -/
inductive DetectResult where
  | notTrained
  | verdict (is_anomaly : Bool) (score : ℚ) (issues : List Issue)
deriving DecidableEq

/-- State of an AnomalyDetector instance.  is_trained is the Python
flag; scaler_transform and model_predict/model_score are the fitted
StandardScaler.transform and IsolationForest predict==-1 / score_samples
functions; scaler_fit and model_fit are the (deterministic,
random_state=42) fitting procedures that produce fitted functions from a
prepared frame. -/
structure DetectorState where
  is_trained : Bool
  scaler_transform : List (Option ℚ) → List (Option ℚ)
  scaler_fit : List (List (Option ℚ)) → List (Option ℚ) → List (Option ℚ)
  model_predict : List (Option ℚ) → Bool
  model_score : List (Option ℚ) → ℚ
  model_fit : List (List (Option ℚ)) →
    (List (Option ℚ) → Bool) × (List (Option ℚ) → ℚ)

/-- Failure of AnomalyDetector.train: fewer than 50 data points (the
method prints the message and returns False; the spec's taxonomy names
this outcome InsufficientDataError). -/
inductive TrainError where
  | insufficientData
deriving DecidableEq

/-- AnomalyDetector.train (src/anomaly_detector.py lines 56-78) on an
in-memory frame: refuse a corpus of fewer than 50 rows, otherwise
prepare features, fit the scaler, scale, fit the model and set
is_trained.  The Python bool return becomes Except: error for the
return-False path, ok with the updated state for the return-True path. -/
def DetectorState.train (d : DetectorState) (df : List MetricSample) :
    Except TrainError DetectorState :=
  if df.length < 50 then Except.error TrainError.insufficientData
  else
    let X := prepare_features df
    let st := d.scaler_fit X
    let scaled := X.map st
    let fitted := d.model_fit scaled
    Except.ok { d with
      scaler_transform := st
      model_predict := fitted.1
      model_score := fitted.2
      is_trained := true }

/-- AnomalyDetector.detect (src/anomaly_detector.py lines 80-116): the
untrained sentinel, else prepare the one-row frame, scale it, predict
and score, and collect problematic metrics. -/
def DetectorState.detect (d : DetectorState) (m : MetricSample) : DetectResult :=
  if d.is_trained then
    let X := prepare_features [m]
    let row := X.headD []
    let scaled := d.scaler_transform row
    let pred := d.model_predict scaled
    DetectResult.verdict pred (d.model_score scaled) (problematic_metrics m pred)
  else DetectResult.notTrained

/-- The four healing action kinds of src/healing_engine.py. -/
inductive ActionType where
  | cpu_optimization
  | memory_cleanup
  | performance_optimization
  | error_recovery
deriving DecidableEq

/-- The details dict passed to HealingEngine.log_action: the triggering
metric value plus the simulated action strings. -/
structure ActionDetails where
  metric_value : ℚ
  actions : List String
deriving DecidableEq

/-- One entry of HealingEngine.healing_history (log_action lines
60-65). -/
structure LogEntry where
  timestamp : ℚ
  action : ActionType
  details : ActionDetails
  status : String
deriving DecidableEq

/-- The thresholds section of the engine's config (load_config lines
41-45); healing.cooldown_minutes exists in the config file but is never
read by the decision logic, and cooldown_period is fixed at five minutes
in the constructor. -/
structure Thresholds where
  cpu_critical : ℚ
  memory_critical : ℚ
  response_time_critical : ℚ
deriving DecidableEq

/-- The default thresholds of load_config's fallback config. -/
def defaultThresholds : Thresholds := ⟨90, 85, 5000⟩

/-- State of a HealingEngine instance: the detector, the
healing_history ledger, the cooldown period (seconds), the last_actions
dict (as a total function to Option) and the configured thresholds. -/
structure HealingEngine where
  detector : DetectorState
  healing_history : List LogEntry
  cooldown_period : ℚ
  last_actions : ActionType → Option ℚ
  thresholds : Thresholds

/-- HealingEngine.__init__ (lines 13-20): empty history, empty
last_actions dict, cooldown_period = timedelta(minutes=5) = 300 seconds,
thresholds from config (default fallback). -/
def initEngine (d : DetectorState) : HealingEngine :=
  { detector := d
    healing_history := []
    cooldown_period := 300
    last_actions := fun _ => none
    thresholds := defaultThresholds }

/-- HealingEngine.can_perform_action (src/healing_engine.py lines
48-56): true when the action kind has never fired, else true exactly
when strictly more than the cooldown period has elapsed. -/
def HealingEngine.can_perform_action (e : HealingEngine)
    (action_type : ActionType) (now : ℚ) : Bool :=
  match e.last_actions action_type with
  | none => true
  | some last_time => decide (e.cooldown_period < now - last_time)

/-- HealingEngine.log_action (src/healing_engine.py lines 58-73):
append the entry to healing_history, overwrite last_actions for the
kind, and return the entry.  The two datetime.now() calls of the method
are the single instant `now` of the call. -/
def HealingEngine.log_action (e : HealingEngine) (action_type : ActionType)
    (details : ActionDetails) (now : ℚ) : LogEntry × HealingEngine :=
  let entry : LogEntry := ⟨now, action_type, details, "executed"⟩
  (entry, { e with
    healing_history := e.healing_history ++ [entry]
    last_actions := fun k => if k = action_type then some now else e.last_actions k })

/-- Common shape of the four heal_* methods (lines 82-189): return None
without logging when the kind is in cooldown, else log and return the
entry.  The print and sleep calls are side effects outside the state. -/
def healVia (e : HealingEngine) (k : ActionType) (details : ActionDetails)
    (now : ℚ) : Option LogEntry × HealingEngine :=
  if e.can_perform_action k now then
    let r := e.log_action k details now
    (some r.1, r.2)
  else (none, e)

/-- The literal simulated actions of heal_high_cpu. -/
def cpuSteps : List String :=
  ["Identified top CPU-consuming processes",
   "Reduced background task priority",
   "Enabled CPU throttling for non-critical services",
   "Distributed load across available cores"]

/-- The literal simulated actions of heal_high_memory. -/
def memorySteps : List String :=
  ["Cleared application caches",
   "Released unused memory buffers",
   "Optimized database connection pools",
   "Restarted memory-leaking services"]

/-- The literal simulated actions of heal_slow_response. -/
def responseSteps : List String :=
  ["Enabled response caching",
   "Optimized database queries",
   "Scaled up worker processes",
   "Activated CDN for static content"]

/-- The literal simulated actions of heal_high_errors. -/
def errorSteps : List String :=
  ["Analyzed error logs for patterns",
   "Restarted failing services",
   "Reset connection pools",
   "Enabled circuit breakers"]

/-- HealingEngine.heal_high_cpu (lines 82-108). -/
def HealingEngine.heal_high_cpu (e : HealingEngine) (cpu_usage now : ℚ) :
    Option LogEntry × HealingEngine :=
  healVia e ActionType.cpu_optimization ⟨cpu_usage, cpuSteps⟩ now

/-- HealingEngine.heal_high_memory (lines 110-135). -/
def HealingEngine.heal_high_memory (e : HealingEngine) (memory_usage now : ℚ) :
    Option LogEntry × HealingEngine :=
  healVia e ActionType.memory_cleanup ⟨memory_usage, memorySteps⟩ now

/-- HealingEngine.heal_slow_response (lines 137-162). -/
def HealingEngine.heal_slow_response (e : HealingEngine) (response_time now : ℚ) :
    Option LogEntry × HealingEngine :=
  healVia e ActionType.performance_optimization ⟨response_time, responseSteps⟩ now

/-- HealingEngine.heal_high_errors (lines 164-189). -/
def HealingEngine.heal_high_errors (e : HealingEngine) (error_rate now : ℚ) :
    Option LogEntry × HealingEngine :=
  healVia e ActionType.error_recovery ⟨error_rate, errorSteps⟩ now

/-- HealingEngine.analyze_and_heal (src/healing_engine.py lines
191-230): detect; when the verdict is falsy (untrained sentinel or not
anomalous) return None with the state untouched; when anomalous,
evaluate the four thresholds in the fixed order cpu, memory,
response_time, error_rate (missing values read as 0 by metrics.get),
dispatch each breached and cooldown-eligible action, and return the list
of appended entries. -/
def HealingEngine.analyze_and_heal (e : HealingEngine) (metrics : MetricSample)
    (now : ℚ) : Option (List LogEntry) × HealingEngine :=
  match e.detector.detect metrics with
  | DetectResult.notTrained => (none, e)
  | DetectResult.verdict is_anomaly _score _issues =>
    if is_anomaly then
      let cpu := metrics.cpu_usage.getD 0
      let memory := metrics.memory_usage.getD 0
      let response_time := metrics.response_time.getD 0
      let error_rate := metrics.error_rate.getD 0
      let r1 := if e.thresholds.cpu_critical < cpu
        then e.heal_high_cpu cpu now else (none, e)
      let r2 := if e.thresholds.memory_critical < memory
        then r1.2.heal_high_memory memory now else (none, r1.2)
      let r3 := if e.thresholds.response_time_critical < response_time
        then r2.2.heal_slow_response response_time now else (none, r2.2)
      let r4 := if (5 : ℚ) < error_rate
        then r3.2.heal_high_errors error_rate now else (none, r3.2)
      (some (r1.1.toList ++ r2.1.toList ++ r3.1.toList ++ r4.1.toList), r4.2)
    else (none, e)

/-- A run of the healing loop: fold analyze_and_heal over a list of
(sample, time) events, keeping the engine state. -/
def runTrace (e : HealingEngine) : List (MetricSample × ℚ) → HealingEngine
  | [] => e
  | (m, t) :: rest => runTrace (e.analyze_and_heal m t).2 rest

/-- Iterate log_action n times with the same kind, details and
timestamp: the append path of the ledger in isolation. -/
def appendN (e : HealingEngine) (k : ActionType) (d : ActionDetails) (t : ℚ) :
    ℕ → HealingEngine
  | 0 => e
  | n + 1 => ((appendN e k d t n).log_action k d t).2

/-- The threshold test analyze_and_heal applies to one action kind on
one sample (used to characterize which kinds fire). -/
def thresholdBreached (e : HealingEngine) (m : MetricSample) :
    ActionType → Bool
  | ActionType.cpu_optimization =>
      decide (e.thresholds.cpu_critical < m.cpu_usage.getD 0)
  | ActionType.memory_cleanup =>
      decide (e.thresholds.memory_critical < m.memory_usage.getD 0)
  | ActionType.performance_optimization =>
      decide (e.thresholds.response_time_critical < m.response_time.getD 0)
  | ActionType.error_recovery =>
      decide ((5 : ℚ) < m.error_rate.getD 0)

/-- The action kinds of the list analyze_and_heal returns (empty when it
returns the None sentinel). -/
def dispatchedKinds (e : HealingEngine) (m : MetricSample) (now : ℚ) :
    List ActionType :=
  (((e.analyze_and_heal m now).1).getD []).map (·.action)

/-- An untrained detector instance with identity scaler and constant
model functions, for concrete evaluations. -/
def dUntrained : DetectorState :=
  { is_trained := false
    scaler_transform := fun v => v
    scaler_fit := fun _ => fun v => v
    model_predict := fun _ => true
    model_score := fun _ => 0
    model_fit := fun _ => (fun _ => true, fun _ => 0) }

/-- A trained detector whose model flags every sample anomalous. -/
def dAnomalous : DetectorState := { dUntrained with is_trained := true }

/-- A trained detector whose model flags no sample anomalous. -/
def dNormal : DetectorState :=
  { dAnomalous with
    model_predict := fun _ => false
    model_fit := fun _ => (fun _ => false, fun _ => 0) }

/-- A baseline sample with every recognized field present. -/
def sBase : MetricSample :=
  ⟨some 10, some 20, some 30, some 40, some 50, some 60, some 70⟩

/-- A 50-sample training corpus whose cpu_usage mean is 10. -/
def corpusC : List MetricSample := List.replicate 50 sBase

/-- sBase with the cpu_usage field missing. -/
def sMissing : MetricSample := { sBase with cpu_usage := none }

/-- sMissing with cpu_usage set explicitly to the cpu_usage mean of
corpusC. -/
def sFilled : MetricSample := { sMissing with cpu_usage := some 10 }

/-- A sample breaching the cpu, memory and response-time thresholds of
the default config but not the error-rate threshold. -/
def sAnomalous : MetricSample :=
  ⟨some 98, some 92, some 60, some 100, some 6000, some 120, some 1⟩

/-- Invariant of reachable HealingEngine states: the cooldown period is
the constructor's 300 seconds, every ledger entry's kind has a
last_actions record at least as late as the entry, and same-kind ledger
entries are strictly more than one cooldown period apart. -/
def EngineInv (e : HealingEngine) : Prop :=
  e.cooldown_period = 300 ∧
  (∀ x ∈ e.healing_history,
    ∃ t, e.last_actions x.action = some t ∧ x.timestamp ≤ t) ∧
  e.healing_history.Pairwise
    (fun a b => a.action = b.action →
      a.timestamp + e.cooldown_period < b.timestamp)

/-! Helper lemmas shared by the claim theorems. -/

/-- Filling a single-row frame cell with its own one-element column mean
leaves it unchanged: the mean of [some v] is v, the mean of [none] is
none. -/
theorem fill_single (x : Option ℚ) :
    (match x with
      | some v => some v
      | none => colMean [x]) = x := by
  cases x <;> rfl

/-- prepare_features on a one-row frame is the raw row: every column
mean is taken over that single row, so nothing is imputed from anywhere
else. -/
theorem prepare_features_single (s : MetricSample) :
    prepare_features [s] = [sampleRow s] := by
  unfold prepare_features featureGetters sampleRow
  simp only [List.map_cons, List.map_nil, List.zipWith_cons_cons, List.zipWith_nil_right]
  simp only [fill_single]

/-- Column mean of a constant fully-present column. -/
theorem colMean_replicate (n : ℕ) (v : ℚ) (hn : n ≠ 0) :
    colMean (List.replicate n (some v)) = some v := by
  have h1 : List.filterMap id (List.replicate n (some v)) = List.replicate n v := by
    induction n with
    | zero => rfl
    | succ k ih => simp [List.replicate_succ, ih]
  unfold colMean
  simp only [h1, List.length_replicate, List.sum_replicate]
  rw [if_neg hn]
  congr 1
  rw [nsmul_eq_mul]
  exact mul_div_cancel_left₀ v (by exact_mod_cast hn)

/-- The log_action state keeps every prior ledger entry. -/
theorem log_action_keeps (e : HealingEngine) (k : ActionType)
    (d : ActionDetails) (t : ℚ) :
    ∀ x ∈ e.healing_history, x ∈ (e.log_action k d t).2.healing_history := by
  intro x hx
  unfold HealingEngine.log_action
  exact List.mem_append_left _ hx

/-- appendN grows the ledger by exactly one entry per call. -/
theorem appendN_length (e : HealingEngine) (k : ActionType) (d : ActionDetails)
    (t : ℚ) (n : ℕ) :
    (appendN e k d t n).healing_history.length = e.healing_history.length + n := by
  induction n with
  | zero => rfl
  | succ n ih =>
    simp only [appendN, HealingEngine.log_action, List.length_append, ih,
      List.length_singleton]
    omega

/-- The action kinds a heal step returns: its own kind when eligible,
nothing when in cooldown. -/
theorem healVia_kinds (e : HealingEngine) (k : ActionType) (d : ActionDetails)
    (now : ℚ) :
    (healVia e k d now).1.toList.map (·.action) =
      if e.can_perform_action k now then [k] else [] := by
  unfold healVia HealingEngine.log_action
  by_cases h : e.can_perform_action k now = true <;> simp [h]

/-- Logging one kind does not disturb another kind's cooldown
eligibility. -/
theorem log_action_can_perform_other (e : HealingEngine) (k kq : ActionType)
    (d : ActionDetails) (now tq : ℚ) (hne : kq ≠ k) :
    (e.log_action k d now).2.can_perform_action kq tq =
      e.can_perform_action kq tq := by
  simp [HealingEngine.log_action, HealingEngine.can_perform_action, hne]

/-- A heal step for one kind does not disturb another kind's cooldown
eligibility. -/
theorem healVia_can_perform_other (e : HealingEngine) (k kq : ActionType)
    (d : ActionDetails) (now tq : ℚ) (hne : kq ≠ k) :
    (healVia e k d now).2.can_perform_action kq tq =
      e.can_perform_action kq tq := by
  unfold healVia
  by_cases h : e.can_perform_action k now = true
  · rw [if_pos h]
    exact log_action_can_perform_other e k kq d now tq hne
  · rw [if_neg h]

/-- A conditionally executed heal step for one kind does not disturb
another kind's cooldown eligibility. -/
theorem condHeal_can_perform_other {c : Prop} [Decidable c] {e0 : HealingEngine}
    {k kq : ActionType} {d : ActionDetails} {now tq : ℚ} (hne : kq ≠ k) :
    (if c then healVia e0 k d now else (none, e0)).2.can_perform_action kq tq =
      e0.can_perform_action kq tq := by
  split
  · exact healVia_can_perform_other e0 k kq d now tq hne
  · rfl

/-- The action kinds a conditionally executed heal step returns: its own
kind when the condition holds and the kind is eligible, else nothing. -/
theorem condHeal_kinds {c : Prop} [Decidable c] (e0 : HealingEngine)
    (k : ActionType) (d : ActionDetails) (now : ℚ) :
    (if c then healVia e0 k d now else (none, e0)).1.toList.map (·.action) =
      if c ∧ e0.can_perform_action k now = true then [k] else [] := by
  split
  case isTrue h =>
    rw [healVia_kinds]
    by_cases h2 : e0.can_perform_action k now = true
    · simp [h, h2]
    · simp [h, h2]
  case isFalse h => simp [h]

/-- On an anomalous verdict, the kinds of the returned action list are
exactly the ordered kinds [cpu, memory, response-time, error-rate]
restricted to those whose threshold is breached and whose cooldown (at
the pre-call state) permits firing. -/
theorem analyze_and_heal_kinds (e : HealingEngine) (m : MetricSample)
    (now sc : ℚ) (iss : List Issue)
    (hd : e.detector.detect m = DetectResult.verdict true sc iss) :
    ∃ acts, (e.analyze_and_heal m now).1 = some acts ∧
      acts.map (·.action) =
        [ActionType.cpu_optimization, ActionType.memory_cleanup,
         ActionType.performance_optimization, ActionType.error_recovery].filter
          (fun k => thresholdBreached e m k && e.can_perform_action k now) := by
  unfold HealingEngine.analyze_and_heal
  rw [hd]
  dsimp only
  rw [if_pos rfl]
  refine ⟨_, rfl, ?_⟩
  simp only [HealingEngine.heal_high_cpu, HealingEngine.heal_high_memory,
    HealingEngine.heal_slow_response, HealingEngine.heal_high_errors]
  simp only [List.map_append]
  rw [condHeal_kinds, condHeal_kinds, condHeal_kinds, condHeal_kinds]
  rw [condHeal_can_perform_other (by decide),
    condHeal_can_perform_other (by decide),
    condHeal_can_perform_other (by decide),
    condHeal_can_perform_other (by decide),
    condHeal_can_perform_other (by decide),
    condHeal_can_perform_other (by decide)]
  simp only [thresholdBreached, List.filter_cons, List.filter_nil,
    Bool.and_eq_true, decide_eq_true_eq]
  split_ifs <;> simp_all

/-- Eligibility for a kind with a recorded last-fired time means the
cooldown period has strictly elapsed. -/
theorem can_perform_some (e : HealingEngine) (k : ActionType) (now t : ℚ)
    (hl : e.last_actions k = some t)
    (hcan : e.can_perform_action k now = true) :
    e.cooldown_period < now - t := by
  unfold HealingEngine.can_perform_action at hcan
  rw [hl] at hcan
  exact of_decide_eq_true hcan

/-- An eligible log_action preserves the engine invariant. -/
theorem inv_log (e : HealingEngine) (k : ActionType) (d : ActionDetails)
    (now : ℚ) (hcan : e.can_perform_action k now = true) (h : EngineInv e) :
    EngineInv (e.log_action k d now).2 := by
  obtain ⟨hcd, hlast, hpw⟩ := h
  unfold HealingEngine.log_action
  refine ⟨hcd, ?_, ?_⟩
  · intro x hx
    rcases List.mem_append.1 hx with hx | hx
    · obtain ⟨t, ht1, ht2⟩ := hlast x hx
      by_cases hk : x.action = k
      · rw [hk] at ht1
        have hlt := can_perform_some e k now t ht1 hcan
        refine ⟨now, by simp [hk], by rw [hcd] at hlt; linarith⟩
      · exact ⟨t, by simp [hk, ht1], ht2⟩
    · rw [List.mem_singleton] at hx
      subst hx
      exact ⟨now, by simp, le_refl now⟩
  · rw [List.pairwise_append]
    refine ⟨hpw, List.pairwise_singleton _ _, ?_⟩
    intro a ha b hb hab
    rw [List.mem_singleton] at hb
    subst hb
    obtain ⟨t, ht1, ht2⟩ := hlast a ha
    rw [hab] at ht1
    have hlt := can_perform_some e k now t ht1 hcan
    dsimp only
    linarith

/-- A heal step preserves the engine invariant. -/
theorem inv_healVia (e : HealingEngine) (k : ActionType) (d : ActionDetails)
    (now : ℚ) (h : EngineInv e) : EngineInv (healVia e k d now).2 := by
  unfold healVia
  by_cases hc : e.can_perform_action k now = true
  · rw [if_pos hc]
    exact inv_log e k d now hc h
  · rw [if_neg hc]
    exact h

/-- A conditionally executed heal step preserves the engine invariant. -/
theorem inv_condHeal {c : Prop} [Decidable c] (e0 : HealingEngine)
    (k : ActionType) (d : ActionDetails) (now : ℚ) (h : EngineInv e0) :
    EngineInv (if c then healVia e0 k d now else (none, e0)).2 := by
  split
  · exact inv_healVia e0 k d now h
  · exact h

/-- analyze_and_heal preserves the engine invariant. -/
theorem inv_analyze (e : HealingEngine) (m : MetricSample) (now : ℚ)
    (h : EngineInv e) : EngineInv (e.analyze_and_heal m now).2 := by
  unfold HealingEngine.analyze_and_heal
  cases e.detector.detect m with
  | notTrained => exact h
  | verdict b sc iss =>
    cases b with
    | false => exact h
    | true =>
      dsimp only
      rw [if_pos rfl]
      simp only [HealingEngine.heal_high_cpu, HealingEngine.heal_high_memory,
        HealingEngine.heal_slow_response, HealingEngine.heal_high_errors]
      exact inv_condHeal _ _ _ _ (inv_condHeal _ _ _ _
        (inv_condHeal _ _ _ _ (inv_condHeal _ _ _ _ h)))

/-- The freshly constructed engine satisfies the invariant. -/
theorem initEngine_inv (d : DetectorState) : EngineInv (initEngine d) := by
  refine ⟨rfl, ?_, ?_⟩ <;> simp [initEngine]

/-- The invariant holds along every run of the healing loop. -/
theorem runTrace_inv (evs : List (MetricSample × ℚ)) :
    ∀ e : HealingEngine, EngineInv e → EngineInv (runTrace e evs) := by
  induction evs with
  | nil => intro e h; exact h
  | cons ev rest ih =>
    intro e h
    cases ev with
    | mk m t => exact ih _ (inv_analyze e m t h)

/-! Claim theorems. -/

/-- C1: in every engine state reachable by running analyze_and_heal from
a fresh engine over any trace of samples and call times, any two ledger
entries of the same action kind have timestamps strictly more than one
cooldown period (the constructor's 300 seconds) apart: once an action of
kind k is logged, no further kind-k action is dispatched until more than
the cooldown has elapsed since the recorded last-fired time. -/
theorem cooldown_ledger_invariant (d : DetectorState)
    (evs : List (MetricSample × ℚ)) :
    (runTrace (initEngine d) evs).cooldown_period = 300 ∧
    (runTrace (initEngine d) evs).healing_history.Pairwise
      (fun a b => a.action = b.action →
        a.timestamp + (runTrace (initEngine d) evs).cooldown_period <
          b.timestamp) :=
  ⟨(runTrace_inv evs _ (initEngine_inv d)).1,
   (runTrace_inv evs _ (initEngine_inv d)).2.2⟩

/-- C2: can_perform_action is true when no last_actions entry exists for
the kind; once log_action records the kind as last fired at t, the check
at tq is true exactly when tq is strictly later than t plus the cooldown
period (so false for all tq up to and including t + cooldown). -/
theorem cooldown_gate (e : HealingEngine) (k : ActionType) (d : ActionDetails)
    (t tq : ℚ) :
    ((e.log_action k d t).2.last_actions k = some t) ∧
    (e.last_actions k = none → e.can_perform_action k tq = true) ∧
    (e.last_actions k = some t →
      (e.can_perform_action k tq = true ↔ t + e.cooldown_period < tq)) := by
  refine ⟨by simp [HealingEngine.log_action], ?_, ?_⟩
  · intro h
    simp [HealingEngine.can_perform_action, h]
  · intro h
    simp only [HealingEngine.can_perform_action, h, decide_eq_true_eq]
    constructor <;> intro h2 <;> linarith

/-- C3 (counterexample): over the 50-sample corpus corpusC the
cpu_usage mean is 10, yet preparing the single sample sMissing (what
detect does after training - prepare_features keeps no training state)
differs from preparing the otherwise identical sample with cpu_usage set
to that mean: the missing field stays missing instead of becoming 10. -/
theorem imputation_counterexample :
    corpusC.length = 50 ∧
    colMean (corpusC.map (·.cpu_usage)) = some 10 ∧
    sFilled = { sMissing with cpu_usage := some 10 } ∧
    prepare_features [sMissing] ≠ prepare_features [sFilled] := by
  refine ⟨by decide, ?_, rfl, by decide⟩
  show colMean (corpusC.map (·.cpu_usage)) = some 10
  have h1 : corpusC.map (·.cpu_usage) = List.replicate 50 (some 10) := by
    simp [corpusC, sBase, List.map_replicate]
  rw [h1]
  exact colMean_replicate 50 10 (by norm_num)

/-- C3 (amended): prepare_features imputes each missing cell with the
mean of its column over the frame passed to that same call - so a
whole-frame (training) call imputes a missing cell with that frame's
column mean, while the one-row frame detect builds at score time is
returned raw and a missing field stays missing (in particular it is
never replaced by zero or by the training-set mean). -/
theorem imputation_frame_local (s : MetricSample) (df : List MetricSample)
    (i : ℕ) (hi : df.get? i = some s) (hm : s.cpu_usage = none) :
    prepare_features [s] = [sampleRow s] ∧
    ((prepare_features df).get? i).map List.head? =
      some (some (colMean (df.map (·.cpu_usage)))) := by
  refine ⟨prepare_features_single s, ?_⟩
  have hi2 : df[i]? = some s := by
    rw [← List.get?_eq_getElem?]
    exact hi
  simp [prepare_features, featureGetters, List.getElem?_map, hi2, hm]

/-- Witness for C3's amended theorem at a concrete frame and sample. -/
theorem imputation_frame_local_witness :
    prepare_features [sMissing] = [sampleRow sMissing] ∧
    ((prepare_features [sMissing, sBase]).get? 0).map List.head? =
      some (some (colMean ([sMissing, sBase].map (·.cpu_usage)))) :=
  imputation_frame_local sMissing [sMissing, sBase] 0 rfl rfl

/-- C4: train on a corpus of fewer than 50 samples fails with
InsufficientDataError (the detector state, and with it the untrained
flag, is untouched); on 50 or more samples it succeeds and the returned
state has is_trained = true. -/
theorem training_floor (d : DetectorState) (df : List MetricSample) :
    (d.train df = Except.error TrainError.insufficientData ↔ df.length < 50) ∧
    (50 ≤ df.length →
      ∃ dq, d.train df = Except.ok dq ∧ dq.is_trained = true) := by
  unfold DetectorState.train
  by_cases h : df.length < 50
  · simp [h]
  · simp [h]

/-- C5: detect on an untrained detector returns the not-trained sentinel
(None, None, "Model not trained yet") and never a normal verdict; detect
is a pure reader of the state, so no training happens implicitly. -/
theorem score_untrained (d : DetectorState) (m : MetricSample)
    (h : d.is_trained = false) :
    d.detect m = DetectResult.notTrained ∧
      ∀ b sc iss, d.detect m ≠ DetectResult.verdict b sc iss := by
  unfold DetectorState.detect
  simp [h]

/-- Witness for C5 at a concrete untrained detector and sample. -/
theorem score_untrained_witness :
    dUntrained.detect ⟨none, none, none, none, none, none, none⟩ =
        DetectResult.notTrained ∧
      ∀ b sc iss,
        dUntrained.detect ⟨none, none, none, none, none, none, none⟩ ≠
          DetectResult.verdict b sc iss :=
  score_untrained dUntrained ⟨none, none, none, none, none, none, none⟩ rfl

/-- C6: on an anomalous verdict, analyze_and_heal returns an action list
whose kinds are exactly the fixed ordered kind list [cpu_optimization,
memory_cleanup, performance_optimization, error_recovery] filtered to
the breached and cooldown-eligible kinds - the evaluation order is fixed
and deterministic: CPU, then memory, then response-time, then
error-rate. -/
theorem evaluation_order (e : HealingEngine) (m : MetricSample)
    (now sc : ℚ) (iss : List Issue)
    (hd : e.detector.detect m = DetectResult.verdict true sc iss) :
    ∃ acts, (e.analyze_and_heal m now).1 = some acts ∧
      acts.map (·.action) =
        [ActionType.cpu_optimization, ActionType.memory_cleanup,
         ActionType.performance_optimization, ActionType.error_recovery].filter
          (fun k => thresholdBreached e m k && e.can_perform_action k now) :=
  analyze_and_heal_kinds e m now sc iss hd

/-- Witness for C6 at a concrete engine and a sample breaching three
thresholds at once. -/
theorem evaluation_order_witness :
    ∃ acts,
      ((initEngine dAnomalous).analyze_and_heal sAnomalous 0).1 = some acts ∧
        acts.map (·.action) =
          [ActionType.cpu_optimization, ActionType.memory_cleanup,
           ActionType.performance_optimization, ActionType.error_recovery].filter
            (fun k => thresholdBreached (initEngine dAnomalous) sAnomalous k &&
              (initEngine dAnomalous).can_perform_action k 0) :=
  evaluation_order (initEngine dAnomalous) sAnomalous 0 0
    [Issue.highCpu 98, Issue.highMemory 92, Issue.slowResponse 6000] (by decide)

/-- C7 (amended): the healing_history ledger is unbounded and
append-only: log_action keeps every prior entry and n appends grow the
length by exactly n - no capacity, no FIFO eviction. -/
theorem ledger_unbounded (e : HealingEngine) (k : ActionType)
    (d : ActionDetails) (t : ℚ) (n : ℕ) :
    (∀ x ∈ e.healing_history, x ∈ (e.log_action k d t).2.healing_history) ∧
    (appendN e k d t n).healing_history.length =
      e.healing_history.length + n :=
  ⟨log_action_keeps e k d t, appendN_length e k d t n⟩

/-- C7 (counterexample): no capacity bounds the ledger: for every
putative capacity, one more append than the capacity leaves the ledger
longer than the capacity. -/
theorem bounded_ledger_counterexample :
    ¬ ∃ cap : ℕ, ∀ n : ℕ, cap < n →
      (appendN (initEngine dUntrained) ActionType.cpu_optimization
          ⟨0, []⟩ 0 n).healing_history.length = cap := by
  rintro ⟨cap, h⟩
  have h1 := h (cap + 1) (Nat.lt_succ_self cap)
  rw [appendN_length] at h1
  simp [initEngine] at h1

/-- C8 (amended): a sample the trained model judges not anomalous takes
no remediation action and leaves the engine unchanged, but
analyze_and_heal returns the None sentinel, not an empty list. -/
theorem healthy_no_action (e : HealingEngine) (m : MetricSample) (now sc : ℚ)
    (iss : List Issue)
    (h : e.detector.detect m = DetectResult.verdict false sc iss) :
    e.analyze_and_heal m now = (none, e) := by
  unfold HealingEngine.analyze_and_heal
  rw [h]
  rfl

/-- Witness for C8's amended theorem at a concrete healthy sample. -/
theorem healthy_no_action_witness :
    (initEngine dNormal).analyze_and_heal
        ⟨some 42, some 51, some 60, some 100, some 210, some 120, some 1⟩ 0 =
      (none, initEngine dNormal) :=
  healthy_no_action (initEngine dNormal)
    ⟨some 42, some 51, some 60, some 100, some 210, some 120, some 1⟩ 0 0 []
    (by decide)

/-- C8 (counterexample): at a concrete non-anomalous sample the code
returns the None sentinel, which is not the empty action list the claim
states. -/
theorem healthy_none_counterexample :
    (initEngine dNormal).detector.detect
        ⟨some 42, some 51, some 60, some 100, some 210, some 120, some 1⟩ =
      DetectResult.verdict false 0 [] ∧
    ((initEngine dNormal).analyze_and_heal
        ⟨some 42, some 51, some 60, some 100, some 210, some 120, some 1⟩ 0).1 =
      none ∧
    ((initEngine dNormal).analyze_and_heal
        ⟨some 42, some 51, some 60, some 100, some 210, some 120, some 1⟩ 0).1 ≠
      some [] := by
  refine ⟨by decide, by decide, by decide⟩

/-- C9: analyze_and_heal reads a missing metric field as 0 (metrics.get
default), so with nonnegative configured thresholds (the defaults are
90, 85, 5000 and the error-rate constant is 5) the action kind tied to a
missing field is never dispatched, whatever the anomaly verdict. -/
theorem missing_metric_no_dispatch (e : HealingEngine) (m : MetricSample)
    (now : ℚ) (h1 : 0 ≤ e.thresholds.cpu_critical)
    (h2 : 0 ≤ e.thresholds.memory_critical)
    (h3 : 0 ≤ e.thresholds.response_time_critical) :
    (m.cpu_usage = none → ActionType.cpu_optimization ∉ dispatchedKinds e m now) ∧
    (m.memory_usage = none → ActionType.memory_cleanup ∉ dispatchedKinds e m now) ∧
    (m.response_time = none →
      ActionType.performance_optimization ∉ dispatchedKinds e m now) ∧
    (m.error_rate = none → ActionType.error_recovery ∉ dispatchedKinds e m now) := by
  have hmain : ∀ k : ActionType, k ∈ dispatchedKinds e m now →
      thresholdBreached e m k = true := by
    intro k hk
    unfold dispatchedKinds at hk
    cases hdet : e.detector.detect m with
    | notTrained => simp [HealingEngine.analyze_and_heal, hdet] at hk
    | verdict b sc iss =>
      cases b with
      | false => simp [HealingEngine.analyze_and_heal, hdet] at hk
      | true =>
        obtain ⟨acts, ha, hlist⟩ := analyze_and_heal_kinds e m now sc iss hdet
        rw [ha] at hk
        simp only [Option.getD_some] at hk
        rw [hlist] at hk
        have hpk := (List.mem_filter.1 hk).2
        simp only [Bool.and_eq_true] at hpk
        exact hpk.1
  refine ⟨?_, ?_, ?_, ?_⟩
  · intro hnone hmem
    have hb := hmain _ hmem
    simp [thresholdBreached, hnone] at hb
    linarith
  · intro hnone hmem
    have hb := hmain _ hmem
    simp [thresholdBreached, hnone] at hb
    linarith
  · intro hnone hmem
    have hb := hmain _ hmem
    simp [thresholdBreached, hnone] at hb
    linarith
  · intro hnone hmem
    have hb := hmain _ hmem
    simp [thresholdBreached, hnone] at hb
    linarith

/-- Witness for C9 at a concrete engine and an all-missing sample. -/
theorem missing_metric_no_dispatch_witness :
    (0:ℚ) ≤ (initEngine dAnomalous).thresholds.cpu_critical ∧
    ((⟨none, none, none, none, none, none, none⟩ : MetricSample).cpu_usage = none →
      ActionType.cpu_optimization ∉
        dispatchedKinds (initEngine dAnomalous)
          ⟨none, none, none, none, none, none, none⟩ 0) := by
  refine ⟨by decide, ?_⟩
  exact (missing_metric_no_dispatch (initEngine dAnomalous)
    ⟨none, none, none, none, none, none, none⟩ 0
    (by decide) (by decide) (by decide)).1

/-- C10: analyze_and_heal on an engine whose detector is untrained gets
the falsy sentinel from detect, returns None (no actions) and leaves the
whole engine state - ledger and last_actions table included -
unchanged; no error escapes to the caller. -/
theorem untrained_no_heal (e : HealingEngine) (m : MetricSample) (now : ℚ)
    (h : e.detector.is_trained = false) :
    e.analyze_and_heal m now = (none, e) := by
  unfold HealingEngine.analyze_and_heal DetectorState.detect
  simp [h]

/-- Witness for C10 at a concrete untrained engine and sample. -/
theorem untrained_no_heal_witness :
    (initEngine dUntrained).analyze_and_heal
        ⟨some 99, some 99, some 99, some 99, some 9999, some 99, some 99⟩ 0 =
      (none, initEngine dUntrained) :=
  untrained_no_heal (initEngine dUntrained)
    ⟨some 99, some 99, some 99, some 99, some 9999, some 99, some 99⟩ 0 rfl

end NeuroCloud
